import Mathlib

/-!
Verification of the vrb resource-lifecycle and asynchronous-loading core
(src/src/Context.cpp and src/src/ModelLoaderAndroid.cpp) against its
natural-language specification. Pointers are modelled as Option values,
scene groups as lists of child identifiers, callbacks as identifiers, and
the side effects relevant to the claims (registry traversals, grafts,
callback invocations, log lines) as explicit event traces.
-/

namespace VrbSpec

/-- A scene-graph Group, identified by its list of child node ids. -/
structure Group where
  children : List Nat
deriving DecidableEq

/-- Modelled from the spec: `Group::TakeChildren` is not under src/. The spec
says the fire step "reparents all children of the built subtree onto the
target anchor (an adopt/move, not a copy)": the target gains all of the
source children and the source is left empty. -/
def Group.TakeChildren (target source : Group) : Group × Group :=
  ({ children := target.children ++ source.children }, { children := [] })

/-- The identifier of the no-op callback `sNoop` from ModelLoaderAndroid.cpp
line 25. Real callbacks are modelled by non-zero identifiers. -/
def sNoopId : Nat := 0

/-- `LoadInfo` (ModelLoaderAndroid.cpp lines 27-47): asset name (as an id),
whether the target GroupPtr is non-null, and the callback id. -/
structure LoadInfo where
  name : Nat
  targetNonNull : Bool
  callback : Nat
deriving DecidableEq

/-- Observable effects of the synchronizer observer firing. -/
inductive LoadEvent where
  | graft (moved : List Nat)
  | callbackFired (cb : Nat) (anchorChildren : List Nat)
deriving DecidableEq

/-- Recognizes callback-invocation events. -/
def LoadEvent.isCallback : LoadEvent → Bool
  | LoadEvent.callbackFired _ _ => true
  | _ => false

/-- `ModelLoaderAndroidSynchronizerObserver` state (ModelLoaderAndroid.cpp
lines 52-77): mSource holds the built subtree (none models a null GroupPtr),
mTargetNonNull records whether mTarget points at the request anchor, and
mCallback is the stored callback id. -/
structure SyncObserver where
  mSource : Option Group
  mTargetNonNull : Bool
  mCallback : Nat
deriving DecidableEq

/-- `ModelLoaderAndroidSynchronizerObserver::Set` (lines 57-61): overwrites
all three stored references. -/
def SyncObserver.Set (_o : SyncObserver) (src : Group) (targetNonNull : Bool)
    (cb : Nat) : SyncObserver :=
  { mSource := some src, mTargetNonNull := targetNonNull, mCallback := cb }

/-- A freshly constructed observer: null source, null target, and the
default-constructed callback, modelled as the no-op id. -/
def SyncObserver.fresh : SyncObserver :=
  { mSource := none, mTargetNonNull := false, mCallback := sNoopId }

/-- `ModelLoaderAndroidSynchronizerObserver::ContextsSynchronized` (lines
62-69). `anchor` is the group mTarget points at when it is non-null. When
both mTarget and mSource are set, the anchor takes the source children, the
stored callback fires on the post-graft anchor, and all three references are
cleared (mCallback becomes sNoop); otherwise nothing happens. Returns the
anchor, the observer, and the trace of effects in program order. -/
def ContextsSynchronized (anchor : Group) (o : SyncObserver) :
    Group × SyncObserver × List LoadEvent :=
  match o.mSource, o.mTargetNonNull with
  | some src, true =>
      let g := Group.TakeChildren anchor src
      (g.1, SyncObserver.fresh,
        [LoadEvent.graft src.children,
         LoadEvent.callbackFired o.mCallback g.1.children])
  | _, _ => (anchor, o, [])

/-- One iteration of the worker loop body for one request
(`ModelLoaderAndroid::Run`, lines 196-201): create a fresh root group, arm
the observer with (root, target, callback), build the asset subtree under
the root via the parser (`build name` gives the children the build produces;
a failed build produces none), then Synchronize, which fires the observer on
the render thread. Because mSource aliases the root group, at fire time the
source holds exactly the built children, so the embedding constructs the
built group before arming. -/
def processRequest (build : Nat → List Nat) (anchor : Group)
    (o : SyncObserver) (info : LoadInfo) :
    Group × SyncObserver × List LoadEvent :=
  let group : Group := { children := build info.name }
  let armed := o.Set group info.targetNonNull info.callback
  ContextsSynchronized anchor armed

/-! ## Context.cpp: device-context lifecycle -/

/-- Observable effects of Context GL lifecycle calls. `initAllResources`
stands for `m.resourcesHead.InitializeGL(*this)`, `extensionsProbe` for
`m.glExtensions->Initialize()`, `shutdownAllResources` for
`m.resourcesHead.ShutdownGL(*this)`, and `logInvalidContext` for the
VRB_LOG lines reporting an invalid EGLContext. -/
inductive GLEvent where
  | initAllResources
  | extensionsProbe
  | logInvalidContext
  | shutdownAllResources
deriving DecidableEq

/-- The device-context part of `Context::State`: the stored EGLContext,
where `none` models EGL_NO_CONTEXT. -/
structure ContextState where
  eglContext : Option Nat
deriving DecidableEq

/-- `Context::InitializeGL` (Context.cpp lines 80-98). `current` is the
result of eglGetCurrentContext(). With no current context it logs, stores
EGL_NO_CONTEXT and returns false without touching the registry or the
extension probe; otherwise it stores the current context, runs the
initialize-all traversal on the main resource registry, then the extension
probe, and returns true. (The success-path VRB_LOG comparison lines are
elided from the trace.) -/
def InitializeGL (current : Option Nat) (_s : ContextState) :
    Bool × ContextState × List GLEvent :=
  match current with
  | none => (false, { eglContext := none }, [GLEvent.logInvalidContext])
  | some c =>
      (true, { eglContext := some c },
        [GLEvent.initAllResources, GLEvent.extensionsProbe])

/-- `Context::ShutdownGL` (Context.cpp lines 109-117). With no current
context it logs, but it then runs the shutdown traversal unconditionally and
resets the stored context to EGL_NO_CONTEXT. -/
def ShutdownGL (current : Option Nat) (_s : ContextState) :
    ContextState × List GLEvent :=
  let logs : List GLEvent :=
    match current with
    | none => [GLEvent.logInvalidContext]
    | some _ => []
  ({ eglContext := none }, logs ++ [GLEvent.shutdownAllResources])

/-! ## Context.cpp: per-frame update and registries -/

/-- Observable per-frame effects of `Context::Update`. `stagedProcessed`
stands for `m.addedResourcesHead.Update(*this)` running over the staged
items, `mergeStaged` for `m.resourcesTail.PrependAndAdoptList(...)`, and
`updateAllRun` for `m.updatableHead.UpdateResource(*this)`. -/
inductive FrameEvent where
  | stagedProcessed (items : List Nat)
  | mergeStaged (items : List Nat)
  | updateAllRun
deriving DecidableEq

/-- The three registries owned by `Context::State`, each as its
front-to-back traversal list of item ids. -/
structure CtxRegistries where
  addedResources : List Nat
  resources : List Nat
  updatables : List Nat
deriving DecidableEq

/-- `Context::Update` (Context.cpp lines 101-107). Modelled from the spec
for the registry hooks not under src/: `ResourceGLHead::Update` processes
the staged list and reports whether it held anything, and
`PrependAndAdoptList` front-splices the staged list onto the main registry
and empties it. The updatable traversal runs last either way. -/
def Update (s : CtxRegistries) : CtxRegistries × List FrameEvent :=
  if s.addedResources = [] then
    (s, [FrameEvent.stagedProcessed [], FrameEvent.updateAllRun])
  else
    ({ s with addedResources := [],
              resources := s.addedResources ++ s.resources },
      [FrameEvent.stagedProcessed s.addedResources,
       FrameEvent.mergeStaged s.addedResources,
       FrameEvent.updateAllRun])

/-- Modelled from the spec: the intrusive `Prepend` used by
`Context::AddUpdatable` and `Context::AddResourceGL` (Context.cpp lines
128-136) lives in private headers not under src/. The spec says Attach
"detaches item from any prior registry, links it at the front of this
registry": any earlier occurrence is removed and the item is linked at the
front of the traversal list. -/
def Attach (item : Nat) (reg : List Nat) : List Nat :=
  item :: reg.filter (fun x => x ≠ item)

/-- A whole sequence of Attach calls applied in order to a registry. -/
def AttachAll (items : List Nat) (reg : List Nat) : List Nat :=
  items.foldl (fun r i => Attach i r) reg

/-! ## ModelLoaderAndroid.cpp: request queue and worker batches -/

/-- Caller- and worker-side operations on the loader: `enqueue` is a
`LoadModel` call appending a request id, `runBatch` is one worker-loop
iteration swapping the whole pending list out and, unless shutdown was
requested, servicing it in order, and `stopRequest` is `ShutdownJava`
setting the done flag. -/
inductive LoaderOp where
  | enqueue (r : Nat)
  | runBatch
  | stopRequest
deriving DecidableEq

/-- Loader state: the pending `loadList`, the ids whose callbacks have fired
in order, and the `done` flag. -/
structure LoaderState where
  loadList : List Nat
  fired : List Nat
  done : Bool
deriving DecidableEq

/-- One step of the loader. `LoadModel` (lines 154-159) appends via
push_back. A worker iteration (`Run`, lines 182-204) swaps the pending list
into a local batch; if done was observed the batch is dropped, otherwise
each request is serviced in FIFO batch order, each firing its callback via
the synchronize rendezvous. `ShutdownJava` (lines 133-137) sets done. -/
def loaderStep (s : LoaderState) : LoaderOp → LoaderState
  | LoaderOp.enqueue r => { s with loadList := s.loadList ++ [r] }
  | LoaderOp.runBatch =>
      if s.done then { s with loadList := [] }
      else { s with loadList := [], fired := s.fired ++ s.loadList }
  | LoaderOp.stopRequest => { s with done := true }

/-- Run a schedule of loader operations from the initial state. -/
def runLoader (ops : List LoaderOp) : LoaderState :=
  ops.foldl loaderStep { loadList := [], fired := [], done := false }

/-- The request ids enqueued by a schedule, in call order. -/
def enqueuedOf : List LoaderOp → List Nat
  | [] => []
  | LoaderOp.enqueue r :: rest => r :: enqueuedOf rest
  | _ :: rest => enqueuedOf rest

/-! ## ModelLoaderAndroid.cpp: lock discipline -/

/-- Primitive steps in program order of the lock-touching functions. `lock`
and `unlock` are MutexAutoLock construction and destruction, `pushBack` is
`m.loadList.push_back(...)`, `setDone` is `m.done = true`, and `signalCV`
is `m.loadLock.Signal()`. -/
inductive LockOp where
  | lock
  | unlock
  | pushBack
  | setDone
  | signalCV
deriving DecidableEq

/-- `ModelLoaderAndroid::LoadModel` (lines 154-159) in program order: the
statement `MutexAutoLock(m.loadLock);` constructs an unnamed temporary
guard whose destructor releases the mutex at the end of that same
statement, so the push_back and the Signal that follow run after the
unlock. -/
def LoadModelOps : List LockOp :=
  [LockOp.lock, LockOp.unlock, LockOp.pushBack, LockOp.signalCV]

/-- The shutdown block of `ModelLoaderAndroid::ShutdownJava` (lines
133-137): the same unnamed-temporary `MutexAutoLock(m.loadLock);` pattern,
followed by the done-flag store and the Signal. -/
def ShutdownJavaOps : List LockOp :=
  [LockOp.lock, LockOp.unlock, LockOp.setDone, LockOp.signalCV]

/-- The operations the claim says should happen while the mutex is held:
queue mutation, done-flag mutation, and the condition-variable signal. -/
def isGuardedOp : LockOp → Bool
  | LockOp.pushBack => true
  | LockOp.setDone => true
  | LockOp.signalCV => true
  | _ => false

/-- Walks the operation list tracking how many lock acquisitions are
outstanding, and checks every guarded operation happens with the lock
held. -/
def guardedUnderLockAux : Nat → List LockOp → Bool
  | _, [] => true
  | held, LockOp.lock :: rest => guardedUnderLockAux (held + 1) rest
  | held, LockOp.unlock :: rest => guardedUnderLockAux (held - 1) rest
  | held, op :: rest =>
      (decide (0 < held) || !(isGuardedOp op)) && guardedUnderLockAux held rest

/-- True when every queue/done/signal operation in the list runs while the
mutex is held. -/
def guardedUnderLock (ops : List LockOp) : Bool :=
  guardedUnderLockAux 0 ops

/-! ## ModelLoaderAndroid.cpp: worker start-up -/

/-- The start-up-relevant part of `ModelLoaderAndroid::State`: whether the
loader is running and whether the worker thread was created. -/
structure MLJavaState where
  running : Bool
  childStarted : Bool
deriving DecidableEq

/-- `ModelLoaderAndroid::InitializeJava` (lines 108-121). The C++ function
returns void, so the caller-visible return value is Unit. If already
running it first shuts down. If `GetJavaVM` fails (non-zero result,
modelled by `getJavaVMok = false`) it returns early: no global refs, no
thread creation, running stays false. On success it creates the worker
thread and sets running. -/
def InitializeJava (getJavaVMok : Bool) (s : MLJavaState) :
    MLJavaState × Unit :=
  let s1 := if s.running then { s with running := false } else s
  if getJavaVMok then ({ running := true, childStarted := true }, ())
  else (s1, ())

/-! ## Claim theorems -/

/-- C1: for every load request serviced by the worker loop with a non-null
target anchor, the completion callback fires exactly once, the graft via
TakeChildren happens before the callback, at invocation time the anchor
already holds everything built for the request, and when the build fails
(no children built) the callback still fires with the anchor unchanged. -/
theorem C1_callback_once_after_graft (build : Nat → List Nat) (anchor : Group)
    (o : SyncObserver) (info : LoadInfo) (h : info.targetNonNull = true) :
    (processRequest build anchor o info).2.2 =
      [LoadEvent.graft (build info.name),
       LoadEvent.callbackFired info.callback
         (anchor.children ++ build info.name)] ∧
    ((processRequest build anchor o info).2.2.filter
        LoadEvent.isCallback).length = 1 ∧
    (processRequest build anchor o info).1.children
      = anchor.children ++ build info.name ∧
    (build info.name = [] →
      (processRequest build anchor o info).1.children = anchor.children) := by
  simp [processRequest, ContextsSynchronized, SyncObserver.Set, h,
    Group.TakeChildren, LoadEvent.isCallback]

/-- C1 witness: a concrete request through the worker loop body. -/
theorem C1_callback_once_after_graft_witness :
    (processRequest (fun _ => [7]) ⟨[1]⟩ SyncObserver.fresh ⟨5, true, 3⟩).2.2 =
      [LoadEvent.graft [7], LoadEvent.callbackFired 3 ([1] ++ [7])] :=
  (C1_callback_once_after_graft (fun _ => [7]) ⟨[1]⟩ SyncObserver.fresh
    ⟨5, true, 3⟩ rfl).1

/-- C2: the observer is one-shot per arming: a fire clears source, target
and callback, and a second ContextsSynchronized without an intervening Set
mutates nothing and fires no callback. -/
theorem C2_observer_one_shot (anchor : Group) (o : SyncObserver)
    (h : o.mTargetNonNull = true) (h2 : o.mSource.isSome) :
    (ContextsSynchronized anchor o).2.1 = SyncObserver.fresh ∧
    ContextsSynchronized (ContextsSynchronized anchor o).1
        (ContextsSynchronized anchor o).2.1
      = ((ContextsSynchronized anchor o).1,
         (ContextsSynchronized anchor o).2.1, []) := by
  obtain ⟨src, hs⟩ := Option.isSome_iff_exists.mp h2
  simp [ContextsSynchronized, hs, h, SyncObserver.fresh]

/-- C2 witness: an armed observer at a concrete anchor. -/
theorem C2_observer_one_shot_witness :
    (ContextsSynchronized ⟨[]⟩ ⟨some ⟨[2]⟩, true, 4⟩).2.1 = SyncObserver.fresh ∧
    ContextsSynchronized (ContextsSynchronized ⟨[]⟩ ⟨some ⟨[2]⟩, true, 4⟩).1
        (ContextsSynchronized ⟨[]⟩ ⟨some ⟨[2]⟩, true, 4⟩).2.1
      = ((ContextsSynchronized ⟨[]⟩ ⟨some ⟨[2]⟩, true, 4⟩).1,
         (ContextsSynchronized ⟨[]⟩ ⟨some ⟨[2]⟩, true, 4⟩).2.1, []) :=
  C2_observer_one_shot ⟨[]⟩ ⟨some ⟨[2]⟩, true, 4⟩ rfl rfl

/-- C3: InitializeGL with no current context returns false and performs
neither the initialize-all traversal nor the extension probe; with a
current non-null context it runs the traversal on the main registry, then
the extension probe, and returns true. -/
theorem C3_InitializeGL_guard (s : ContextState) (c : Nat) :
    (InitializeGL none s).1 = false ∧
    GLEvent.initAllResources ∉ (InitializeGL none s).2.2 ∧
    GLEvent.extensionsProbe ∉ (InitializeGL none s).2.2 ∧
    InitializeGL (some c) s
      = (true, { eglContext := some c },
         [GLEvent.initAllResources, GLEvent.extensionsProbe]) := by
  refine ⟨rfl, ?_, ?_, rfl⟩ <;> simp [InitializeGL]

/-- C4 counterexample: ShutdownGL called with no current context still runs
the device-teardown traversal over the resource registry, so the claim that
the traversal is not invoked fails. -/
theorem C4_counterexample :
    GLEvent.shutdownAllResources ∈ (ShutdownGL none { eglContext := none }).2 ∧
    GLEvent.logInvalidContext ∈ (ShutdownGL none { eglContext := none }).2 := by
  decide

/-- C4 amended: ShutdownGL with no current context logs the invalid context
but does not skip the call: the teardown traversal still runs and the
stored context resets to EGL_NO_CONTEXT. -/
theorem C4_ShutdownGL_runs_teardown (s : ContextState) :
    ShutdownGL none s
      = ({ eglContext := none },
         [GLEvent.logInvalidContext, GLEvent.shutdownAllResources]) := rfl

/-- C10: a load request whose target anchor is null never fires its
callback: the observer guard requires both source and target, so the fire
performs no graft and no callback invocation. -/
theorem C10_null_anchor_no_callback (build : Nat → List Nat) (anchor : Group)
    (o : SyncObserver) (info : LoadInfo) (h : info.targetNonNull = false) :
    (processRequest build anchor o info).1 = anchor ∧
    (processRequest build anchor o info).2.2 = [] := by
  simp [processRequest, ContextsSynchronized, SyncObserver.Set, h]

/-- C10 witness: a concrete request with a null target anchor. -/
theorem C10_null_anchor_no_callback_witness :
    (processRequest (fun _ => [7]) ⟨[1]⟩ SyncObserver.fresh ⟨5, false, 3⟩).1
      = ⟨[1]⟩ ∧
    (processRequest (fun _ => [7]) ⟨[1]⟩ SyncObserver.fresh ⟨5, false, 3⟩).2.2
      = [] :=
  C10_null_anchor_no_callback (fun _ => [7]) ⟨[1]⟩ SyncObserver.fresh
    ⟨5, false, 3⟩ rfl

/-- C5: in a per-frame Update with staged resources present, the staged
registry is processed and front-spliced into the main device-resource
registry, the staging registry is left empty, and the merge event precedes
the updatable traversal, which is the last event of the frame. -/
theorem C5_promotion_before_update (s : CtxRegistries)
    (h : s.addedResources ≠ []) :
    (Update s).1.resources = s.addedResources ++ s.resources ∧
    (Update s).1.addedResources = [] ∧
    (Update s).2.getLast? = some FrameEvent.updateAllRun ∧
    FrameEvent.mergeStaged s.addedResources ∈ (Update s).2.dropLast := by
  simp [Update, h]

/-- C5 witness: a frame with one staged resource. -/
theorem C5_promotion_before_update_witness :
    (Update ⟨[1], [2], [3]⟩).1.resources = [1] ++ [2] ∧
    (Update ⟨[1], [2], [3]⟩).1.addedResources = [] ∧
    (Update ⟨[1], [2], [3]⟩).2.getLast? = some FrameEvent.updateAllRun ∧
    FrameEvent.mergeStaged [1] ∈ (Update ⟨[1], [2], [3]⟩).2.dropLast :=
  C5_promotion_before_update ⟨[1], [2], [3]⟩ (by decide)

/-- Attach links the item at the front of the registry. -/
theorem Attach_head (item : Nat) (reg : List Nat) :
    (Attach item reg).head? = some item := rfl

/-- Attach preserves membership and adds the item. -/
theorem Attach_mem (x item : Nat) (reg : List Nat) :
    x ∈ Attach item reg ↔ x = item ∨ x ∈ reg := by
  constructor
  · intro hx
    rcases List.mem_cons.mp hx with h | h
    · exact Or.inl h
    · exact Or.inr (List.mem_of_mem_filter h)
  · intro hx
    rcases hx with h | h
    · exact h ▸ List.mem_cons_self _ _
    · by_cases he : x = item
      · exact he ▸ List.mem_cons_self _ _
      · exact List.mem_cons_of_mem _
          (List.mem_filter.mpr ⟨h, by simpa using he⟩)

/-- Attach keeps the registry duplicate-free. -/
theorem Attach_nodup (item : Nat) (reg : List Nat) (h : reg.Nodup) :
    (Attach item reg).Nodup := by
  refine List.nodup_cons.mpr ⟨?_, h.filter _⟩
  intro hmem
  exact (by simpa using (List.mem_filter.mp hmem).2 : item ≠ item) rfl

/-- Membership after a sequence of Attach calls. -/
theorem AttachAll_mem (items : List Nat) (reg : List Nat) (x : Nat) :
    x ∈ AttachAll items reg ↔ x ∈ items ∨ x ∈ reg := by
  induction items generalizing reg with
  | nil => simp [AttachAll]
  | cons i is ih =>
      show x ∈ AttachAll is (Attach i reg) ↔ _
      rw [ih, Attach_mem]
      simp [or_comm, or_assoc, or_left_comm]

/-- A sequence of Attach calls keeps the registry duplicate-free. -/
theorem AttachAll_nodup (items : List Nat) (reg : List Nat)
    (h : reg.Nodup) : (AttachAll items reg).Nodup := by
  induction items generalizing reg with
  | nil => exact h
  | cons i is ih => exact ih (Attach i reg) (Attach_nodup i reg h)

/-- After a non-empty sequence of Attach calls the front of the registry is
the most recently attached item. -/
theorem AttachAll_head (items : List Nat) (reg : List Nat)
    (h : items ≠ []) :
    (AttachAll items reg).head? = items.getLast? := by
  induction items generalizing reg with
  | nil => exact absurd rfl h
  | cons i is ih =>
      cases is with
      | nil => simp [AttachAll, Attach_head]
      | cons j js =>
          show (AttachAll (j :: js) (Attach i reg)).head? = _
          rw [ih (Attach i reg) (by simp), List.getLast?_cons_cons]

/-- C6: for every sequence of Attach calls on an initially empty registry,
each attached item is present, appears exactly once per traversal, Attach
links at the front, and the most recently attached item is the first
visited, hence at or before every earlier member. -/
theorem C6_attach_front_once (items : List Nat) :
    (∀ x, x ∈ AttachAll items [] ↔ x ∈ items) ∧
    (AttachAll items []).Nodup ∧
    (∀ x, x ∈ items → (AttachAll items []).count x = 1) ∧
    (∀ item reg, (Attach item reg).head? = some item) ∧
    (items ≠ [] → (AttachAll items []).head? = items.getLast?) := by
  have hmem : ∀ x, x ∈ AttachAll items [] ↔ x ∈ items := by
    intro x; rw [AttachAll_mem]; simp
  have hnd : (AttachAll items []).Nodup := AttachAll_nodup items [] List.nodup_nil
  refine ⟨hmem, hnd, ?_, fun item reg => Attach_head item reg,
    fun h => AttachAll_head items [] h⟩
  intro x hx
  exact List.count_eq_one_of_mem hnd ((hmem x).mpr hx)

/-- C6 witness: three concrete attaches. -/
theorem C6_attach_front_once_witness :
    (3 ∈ AttachAll [1, 2, 3] [] ↔ 3 ∈ [1, 2, 3]) ∧
    (AttachAll [1, 2, 3] []).count 2 = 1 ∧
    (AttachAll [1, 2, 3] []).head? = ([1, 2, 3] : List Nat).getLast? :=
  ⟨(C6_attach_front_once [1, 2, 3]).1 3,
   (C6_attach_front_once [1, 2, 3]).2.2.1 2 (by decide),
   (C6_attach_front_once [1, 2, 3]).2.2.2.2 (by decide)⟩

/-- The loader invariant: with no shutdown in the schedule, the fired
callbacks followed by the still-pending requests are exactly the enqueued
requests in enqueue order. -/
theorem loaderStep_fifo_invariant (ops : List LoaderOp) (s : LoaderState)
    (hdone : s.done = false) (hstop : LoaderOp.stopRequest ∉ ops) :
    (ops.foldl loaderStep s).fired ++ (ops.foldl loaderStep s).loadList
      = s.fired ++ s.loadList ++ enqueuedOf ops := by
  induction ops generalizing s with
  | nil => simp [enqueuedOf]
  | cons op rest ih =>
      have hstop1 : LoaderOp.stopRequest ∉ rest := by
        intro hr; exact hstop (List.mem_cons_of_mem _ hr)
      rw [List.foldl_cons]
      cases op with
      | enqueue r =>
          rw [ih (loaderStep s (LoaderOp.enqueue r))
            (by simp [loaderStep, hdone]) hstop1]
          simp [loaderStep, enqueuedOf]
      | runBatch =>
          rw [ih (loaderStep s LoaderOp.runBatch)
            (by simp [loaderStep, hdone]) hstop1]
          simp [loaderStep, hdone, enqueuedOf]
      | stopRequest => exact absurd (List.mem_cons_self _ _) hstop

/-- C7: with requests enqueued in order and no shutdown in the schedule,
the worker fires callbacks in exactly the enqueue (FIFO) order: the fired
sequence followed by the still-pending tail equals the enqueue sequence,
so a request enqueued before another fires before it. -/
theorem C7_fifo_order (ops : List LoaderOp)
    (hstop : LoaderOp.stopRequest ∉ ops) :
    (runLoader ops).fired ++ (runLoader ops).loadList = enqueuedOf ops := by
  have := loaderStep_fifo_invariant ops
    { loadList := [], fired := [], done := false } rfl hstop
  simpa [runLoader] using this

/-- C7 witness: enqueue 1 then 2, then one worker batch. -/
theorem C7_fifo_order_witness :
    (runLoader [LoaderOp.enqueue 1, LoaderOp.enqueue 2,
        LoaderOp.runBatch]).fired ++
      (runLoader [LoaderOp.enqueue 1, LoaderOp.enqueue 2,
        LoaderOp.runBatch]).loadList
      = enqueuedOf [LoaderOp.enqueue 1, LoaderOp.enqueue 2,
          LoaderOp.runBatch] :=
  C7_fifo_order [LoaderOp.enqueue 1, LoaderOp.enqueue 2, LoaderOp.runBatch]
    (by decide)

/-- C8 counterexample: when GetJavaVM fails on a fresh loader, the state is
unchanged (no worker thread, running stays false: abort and inertness do
hold) but the caller-visible return value equals the one of a successful
call, because InitializeJava returns void; no failure value reaches the
caller, refuting the hard-return-value part of the claim. -/
theorem C8_counterexample :
    (InitializeJava false { running := false, childStarted := false }).1
      = { running := false, childStarted := false } ∧
    (InitializeJava false { running := false, childStarted := false }).2
      = (InitializeJava true { running := false, childStarted := false }).2 := by
  decide

/-- C8 amended: a GetJavaVM failure during InitializeJava on a non-running
loader aborts start-up before creating the worker thread and leaves the
loader inert (state unchanged, running false), but the failure is silent:
the function returns void, so nothing is surfaced to the caller. -/
theorem C8_startup_failure_silent_abort (s : MLJavaState)
    (h : s.running = false) :
    (InitializeJava false s).1 = s ∧ (InitializeJava false s).2 = () := by
  simp [InitializeJava, h]

/-- C8 witness: the fresh-loader instance of the amended claim. -/
theorem C8_startup_failure_silent_abort_witness :
    (InitializeJava false { running := false, childStarted := false }).1
      = { running := false, childStarted := false } ∧
    (InitializeJava false { running := false, childStarted := false }).2
      = () :=
  C8_startup_failure_silent_abort { running := false, childStarted := false }
    rfl

/-- C9: in LoadModel and in the shutdown block of ShutdownJava the
MutexAutoLock temporary releases the mutex at the end of its own statement,
so the queue push_back, the done-flag store and the Signal all run with the
lock no longer held; had the guard been named (as in the worker loop in
Run), the same operations would pass the lock-discipline check. -/
theorem C9_mutations_not_under_lock :
    guardedUnderLock LoadModelOps = false ∧
    guardedUnderLock ShutdownJavaOps = false ∧
    guardedUnderLock
      [LockOp.lock, LockOp.pushBack, LockOp.signalCV, LockOp.unlock]
      = true := by
  decide

end VrbSpec
